import Mathlib

/-!
Shallow embedding of the bounded-concurrency forwarding core of the
pineapple-lead-api repository (Go), covering:
  - config/config.go            (environment-derived configuration)
  - utils/api_utils.go          (MakeAPIRequest, createMockResponse,
                                 MakeAPIRequestAsync, the apiSemaphore gate)
  - utils validation file       (ValidateRequest, respondWithError)
  - handlers/lead_transfer.go   (LeadTransferHandler, QuickQuoteHandler)
  - repositories/lead_repository.go (SaveLead / SaveQuote record shapes)
  - models/models.go            (request / response data shapes)

Effectful Go operations (JSON marshalling, HTTP transport, JSON decoding,
database writes) are represented by explicit oracle fields carrying the
outcome the runtime produced, and the functions below are straight-line
translations of the Go control flow over those outcomes.
-/

namespace Pineapple

/-- Process environment, modelling os.Getenv: a total map from variable
name to value, where an unset variable reads as the empty string. -/
def EnvMap := String → String

/-- Translation of getEnv in config/config.go: fall back to the default
when the variable is empty or unset. -/
def getEnv (osEnv : EnvMap) (key defaultValue : String) : String :=
  let value := osEnv key
  if value == "" then defaultValue else value

/-- Value of a decimal digit string; none when the list is empty or holds a
non-digit character. Helper for goAtoi. -/
def digitsVal (cs : List Char) : Option Nat :=
  match cs with
  | [] => none
  | _ :: _ =>
    cs.foldl
      (fun acc c =>
        match acc with
        | none => none
        | some n => if c.isDigit then some (n * 10 + (c.toNat - 48)) else none)
      (some 0)

/-- Model of strconv.Atoi: optional sign followed by decimal digits, none on
any other input. Machine-width overflow of Go int is not exercised by the
configuration values this development evaluates. -/
def goAtoi (s : String) : Option Int :=
  match s.data with
  | '-' :: rest => (digitsVal rest).map (fun n => -(n : Int))
  | '+' :: rest => (digitsVal rest).map (fun n => (n : Int))
  | cs => (digitsVal cs).map (fun n => (n : Int))

/-- Translation of getEnvAsInt in config/config.go. -/
def getEnvAsInt (osEnv : EnvMap) (key : String) (defaultValue : Int) : Int :=
  let valueStr := getEnv osEnv key ""
  if valueStr == "" then defaultValue
  else
    match goAtoi valueStr with
    | none => defaultValue
    | some value => value

/-- Translation of the Configuration struct in config/config.go. -/
structure Configuration where
  APIBearerToken : String
  DBHost : String
  DBPort : Int
  DBUser : String
  DBPassword : String
  DBName : String
  DBSSLMode : String
  Port : Int
  RequestTimeout : Int
  MaxConcurrentCalls : Int
  LeadTransferEndpoint : String
  QuickQuoteEndpoint : String
  deriving Repr, DecidableEq

/-- Translation of GetConfig in config/config.go. The sync.Once wrapper
fixes the configuration at process start; the pure model applies the same
construction to the process environment. -/
def GetConfig (osEnv : EnvMap) : Configuration :=
  { APIBearerToken := getEnv osEnv "API_BEARER_TOKEN" "",
    DBHost := getEnv osEnv "DB_HOST" "localhost",
    DBPort := getEnvAsInt osEnv "DB_PORT" 5432,
    DBUser := getEnv osEnv "DB_USER" "postgres",
    DBPassword := getEnv osEnv "DB_PASSWORD" "",
    DBName := getEnv osEnv "DB_NAME" "pineapple_leads",
    DBSSLMode := getEnv osEnv "DB_SSLMODE" "disable",
    Port := getEnvAsInt osEnv "PORT" 9000,
    RequestTimeout := getEnvAsInt osEnv "REQUEST_TIMEOUT" 30,
    MaxConcurrentCalls := getEnvAsInt osEnv "MAX_CONCURRENT_CALLS" 10,
    LeadTransferEndpoint :=
      getEnv osEnv "LEAD_TRANSFER_ENDPOINT" "http://gw-test.pineapple.co.za/users/motor_lead",
    QuickQuoteEndpoint :=
      getEnv osEnv "QUICK_QUOTE_ENDPOINT" "http://gw-test.pineapple.co.za/api/v1/quote/quick-quote" }

/-- Whether the second list is an initial segment of the first. Helper for
goContains. -/
def charsStartWith : List Char → List Char → Bool
  | _, [] => true
  | [], _ :: _ => false
  | c :: cs, d :: ds => c == d && charsStartWith cs ds

/-- Whether the second list occurs contiguously inside the first. -/
def charsContain : List Char → List Char → Bool
  | [], needle => charsStartWith [] needle
  | c :: cs, needle => charsStartWith (c :: cs) needle || charsContain cs needle

/-- Model of strings.Contains from the Go standard library. -/
def goContains (s sub : String) : Bool :=
  charsContain s.data sub.data

/-- Observable gate and network events of one MakeAPIRequest dispatch, in
program order: acquire is the semaphore send (line 81 of
utils/api_utils.go), networkCall is httpClient.Do (line 85), release is the
deferred semaphore receive (line 82, runs when the function returns), and
mockResponse marks the createMockResponse branch (line 67). -/
inductive Event where
  | acquire
  | release
  | networkCall
  | mockResponse
  deriving Repr, DecidableEq

/-- Outcome of the transport phase (httpClient.Do then io.ReadAll):
either Do fails, or reading the body fails, or a status and body arrive. -/
inductive NetOutcome where
  | sendFailure (msg : String)
  | readFailure (msg : String)
  | response (status : Nat) (body : String)
  deriving Repr, DecidableEq

/-- Error values MakeAPIRequest / MakeAPIRequestAsync can return, one
constructor per fmt.Errorf site plus the ctx.Err() path of the async
wrapper and the json.Unmarshal failure inside createMockResponse. -/
inductive ApiError where
  | marshalFailure (msg : String)
  | requestFailure (msg : String)
  | sendFailure (msg : String)
  | readFailure (msg : String)
  | non2xx (status : Nat) (body : String)
  | mockDecodeFailure (msg : String)
  | ctxDone (msg : String)
  deriving Repr, DecidableEq

/-- Error text of each ApiError, mirroring the fmt.Errorf format strings in
utils/api_utils.go (the Go %d of an HTTP status renders as toString). -/
def ApiError.message : ApiError → String
  | .marshalFailure msg => "error marshaling request body: " ++ msg
  | .requestFailure msg => "error creating request: " ++ msg
  | .sendFailure msg => "error sending request: " ++ msg
  | .readFailure msg => "error reading response body: " ++ msg
  | .non2xx status body =>
      "API returned non-2XX status code: " ++ toString status ++ ", body: " ++ body
  | .mockDecodeFailure msg => msg
  | .ctxDone msg => msg

/-- Response bytes handed back by MakeAPIRequest: either the raw upstream
body, or one of the structured mock bodies built by createMockResponse
(kept structured rather than serialized; every mock body carries
success set to true as in the source, and the Go float constants 1240.46
and 6200.00 are recorded in cents). -/
inductive Bytes where
  | raw (s : String)
  | mockLead (uuid redirectURL : String)
  | mockQuote (id : String) (premiumCents excessCents : Nat)
  | mockFallback (message : String)
  deriving Repr, DecidableEq

/-- The ([]byte, error) pair returned by MakeAPIRequest. -/
inductive ApiResult where
  | ok (body : Bytes)
  | err (e : ApiError)
  deriving Repr, DecidableEq

/-- Result of one dispatch through MakeAPIRequest together with its
observable gate / network events in program order. -/
structure ApiTrace where
  result : ApiResult
  events : List Event
  deriving Repr, DecidableEq

/-- Number of gate tokens acquired during the dispatch. -/
def ApiTrace.acquired (t : ApiTrace) : Nat :=
  t.events.count Event.acquire

/-- Number of gate tokens released during the dispatch. -/
def ApiTrace.released (t : ApiTrace) : Nat :=
  t.events.count Event.release

/-- Number of network calls issued during the dispatch. -/
def ApiTrace.networkCalls (t : ApiTrace) : Nat :=
  t.events.count Event.networkCall

/-- Oracles for the effectful steps of MakeAPIRequest: the json.Marshal of
the request body, the possible http.NewRequest failure, the transport
outcome, the json.Unmarshal of the body inside createMockResponse (the only
key the mock reads is first_name, so the map is modelled as string-valued
pairs), and time.Now().Unix(). -/
structure ApiEff where
  marshal : Except String String
  newRequest : Option String
  netOutcome : NetOutcome
  mockParse : Except String (List (String × String))
  nowUnix : Int

/-- Translation of the isSwaggerRequest condition of MakeAPIRequest
(utils/api_utils.go lines 53-63): the bearer token from configuration, and
the HTTP_USER_AGENT / HTTP_REFERER values read via os.Getenv. -/
def isSwaggerRequest (osEnv : EnvMap) : Bool :=
  ((GetConfig osEnv).APIBearerToken == "swagger_documentation_token")
    || goContains (osEnv "HTTP_REFERER") "/swagger/"
    || goContains (osEnv "HTTP_USER_AGENT") "Swagger"

/-- Rendering of the Go fmt %v of a map lookup: the value when the key is
present, the nil rendering when absent. -/
def goSprintv (o : Option String) : String :=
  o.getD "<nil>"

/-- Translation of createMockResponse in utils/api_utils.go. -/
def createMockResponse (endpoint _method _jsonBody : String) (eff : ApiEff) : ApiResult :=
  if goContains endpoint "/users/motor_lead" then
    match eff.mockParse with
    | .error msg => .err (.mockDecodeFailure msg)
    | .ok req =>
      let uuid := "swagger-doc-uuid-" ++ toString eff.nowUnix
      let firstName := goSprintv (req.lookup "first_name")
      let redirectURL :=
        "https://test-pineapple-claims.herokuapp.com/car-insurance/get-started?uuid="
          ++ uuid ++ "&ref=swagger-doc&name=" ++ firstName
      .ok (.mockLead uuid redirectURL)
  else if goContains endpoint "/api/v1/quote/quick-quote" then
    .ok (.mockQuote ("swagger-doc-quote-" ++ toString eff.nowUnix) 124046 620000)
  else
    .ok (.mockFallback "Swagger documentation mock response")

/-- Translation of MakeAPIRequest in utils/api_utils.go: marshal the body,
take the mock branch when isSwaggerRequest holds, otherwise build the
request, acquire the semaphore, perform the call, and release the token by
the deferred receive on every return path after the acquire. The jsonBody
string is consumed by the mockParse oracle of createMockResponse. -/
def MakeAPIRequest (osEnv : EnvMap) (endpoint method : String) (eff : ApiEff) : ApiTrace :=
  match eff.marshal with
  | .error msg => { result := .err (.marshalFailure msg), events := [] }
  | .ok jsonBody =>
    if isSwaggerRequest osEnv then
      { result := createMockResponse endpoint method jsonBody eff,
        events := [Event.mockResponse] }
    else
      match eff.newRequest with
      | some msg => { result := .err (.requestFailure msg), events := [] }
      | none =>
        match eff.netOutcome with
        | .sendFailure msg =>
          { result := .err (.sendFailure msg),
            events := [Event.acquire, Event.networkCall, Event.release] }
        | .readFailure msg =>
          { result := .err (.readFailure msg),
            events := [Event.acquire, Event.networkCall, Event.release] }
        | .response status body =>
          if status < 200 || 300 ≤ status then
            { result := .err (.non2xx status body),
              events := [Event.acquire, Event.networkCall, Event.release] }
          else
            { result := .ok (.raw body),
              events := [Event.acquire, Event.networkCall, Event.release] }

/-- Timeline of the client-facing context of one dispatch: whether
ctx.Done() is already closed when the goroutine of MakeAPIRequestAsync
runs its select (the only point at which the code consults the context),
whether the context is cancelled or expires later while the dispatch waits
for the gate or while the network call is in flight, and the ctx.Err()
text. -/
structure Ctx where
  doneAtAsyncCheck : Bool
  cancelledDuringDispatch : Bool
  errMsg : String

/-- Translation of MakeAPIRequestAsync in utils/api_utils.go: the goroutine
checks ctx.Done() once with a non-blocking select and then calls
MakeAPIRequest, which receives no context (the request is built with
http.NewRequest, not bound to ctx, and the semaphore send is an
unconditional channel send), so cancelledDuringDispatch is never consulted
past that single check. -/
def MakeAPIRequestAsync (ctx : Ctx) (osEnv : EnvMap) (endpoint method : String)
    (eff : ApiEff) : ApiTrace :=
  if ctx.doneAtAsyncCheck then
    { result := .err (.ctxDone ctx.errMsg), events := [] }
  else
    MakeAPIRequest osEnv endpoint method eff

/-- One-step transition of the apiSemaphore buffered channel of capacity
cap, tracking the number of in-flight holders: a send blocks unless fewer
than cap tokens are outstanding, a receive requires an outstanding token. -/
inductive GateStep (cap : Nat) : Nat → Nat → Prop where
  | acquire {n : Nat} : n < cap → GateStep cap n (n + 1)
  | release {n : Nat} : 0 < n → GateStep cap n (n - 1)

/-- States of the gate reachable from the empty semaphore by any
interleaving of acquires and releases. -/
inductive GateReachable (cap : Nat) : Nat → Prop where
  | start : GateReachable cap 0
  | step {m n : Nat} : GateReachable cap m → GateStep cap m n → GateReachable cap n

/-- Translation of ErrorResponse in models/models.go. -/
structure ErrorResponse where
  Success : Bool
  Error : String
  deriving Repr, DecidableEq

/-- Translation of LeadTransferRequest in models/models.go. -/
structure LeadTransferRequest where
  Source : String
  FirstName : String
  LastName : String
  Email : String
  IDNumber : String
  QuoteID : String
  ContactNumber : String
  deriving Repr, DecidableEq

/-- Translation of the anonymous data struct of LeadTransferResponse. -/
structure LeadResponseData where
  UUID : String
  RedirectURL : String
  deriving Repr, DecidableEq

/-- Translation of LeadTransferResponse in models/models.go. -/
structure LeadTransferResponse where
  Success : Bool
  Data : LeadResponseData
  deriving Repr, DecidableEq

/-- Translation of Address in models/models.go; Go float64 fields are
carried as rationals. -/
structure Address where
  AddressLine : String
  PostalCode : Int
  Suburb : String
  Latitude : Rat
  Longitude : Rat
  deriving Repr, DecidableEq

/-- Translation of Driver in models/models.go. -/
structure Driver where
  MaritalStatus : String
  CurrentlyInsured : Bool
  YearsWithoutClaims : Int
  RelationToPolicyHolder : String
  EmailAddress : String
  MobileNumber : String
  IDNumber : String
  PrvInsLosses : Int
  LicenseIssueDate : String
  DateOfBirth : String
  deriving Repr, DecidableEq

/-- Translation of Vehicle in models/models.go; Go float64 fields are
carried as rationals. -/
structure Vehicle where
  Year : Int
  Make : String
  Model : String
  MMCode : String
  Modified : String
  Category : String
  Colour : String
  EngineSize : Rat
  Financed : String
  Owner : String
  Status : String
  PartyIsRegularDriver : String
  Accessories : String
  AccessoriesAmount : Rat
  RetailValue : Rat
  MarketValue : Rat
  InsuredValueType : String
  UseType : String
  OvernightParkingSituation : String
  CoverCode : String
  Address : Address
  RegularDriver : Driver
  deriving Repr, DecidableEq

/-- Translation of QuickQuoteRequest in models/models.go. -/
structure QuickQuoteRequest where
  Source : String
  ExternalReferenceID : String
  Vehicles : List Vehicle
  deriving Repr, DecidableEq

/-- Translation of the anonymous element struct of QuickQuoteResponse.Data;
Go float64 fields are carried as rationals. -/
structure QuoteData where
  Premium : Rat
  Excess : Rat
  deriving Repr, DecidableEq

/-- Translation of QuickQuoteResponse in models/models.go. -/
structure QuickQuoteResponse where
  Success : Bool
  ID : String
  Data : List QuoteData
  deriving Repr, DecidableEq

/-- Body written to the client: the JSON encoding of ErrorResponse
(respondWithError), the JSON encoding of a handler success response, or
the plain-text body written by the Go http.Error helper. -/
inductive RespBody where
  | errorJson (e : ErrorResponse)
  | leadJson (resp : LeadTransferResponse)
  | quoteJson (resp : QuickQuoteResponse)
  | plainText (text : String)
  deriving Repr, DecidableEq

/-- Whether the body shape serializes a success flag: the JSON encodings of
ErrorResponse, LeadTransferResponse and QuickQuoteResponse all carry a
success field, while the plain-text body of http.Error carries none. -/
def RespBody.carriesSuccessFlag : RespBody → Bool
  | .errorJson _ => true
  | .leadJson _ => true
  | .quoteJson _ => true
  | .plainText _ => false

/-- Status, content type and body written to the ResponseWriter. -/
structure HttpResponse where
  status : Nat
  contentType : String
  body : RespBody
  deriving Repr, DecidableEq

/-- Translation of respondWithError in the utils validation file: a JSON
ErrorResponse with Success false and the message, under the given status. -/
def respondWithError (code : Nat) (message : String) : HttpResponse :=
  { status := code,
    contentType := "application/json",
    body := .errorJson { Success := false, Error := message } }

/-- Model of the Go http.Error helper used by the handlers: the message as
a plain-text body under the given status. -/
def goHttpError (message : String) (code : Nat) : HttpResponse :=
  { status := code,
    contentType := "text/plain; charset=utf-8",
    body := .plainText message }

/-- An inbound request as seen by ValidateRequest: the Content-Type header
value (the empty string when the header is absent), the outcome of
json.NewDecoder(r.Body).Decode into the target struct, and the outcome of
validate.Struct on the decoded value. -/
structure HttpRequest (α : Type) where
  contentType : String
  decode : Except String α
  validationErr : Option String

/-- Translation of ValidateRequest in the utils validation file: reject
unless the Content-Type header is exactly application/json (415), then
reject an undecodable body (400), then reject a struct-validation failure
(400); ok carries the decoded request. -/
def ValidateRequest {α : Type} (r : HttpRequest α) : Except HttpResponse α :=
  if r.contentType != "application/json" then
    .error (respondWithError 415 "Content-Type must be application/json")
  else
    match r.decode with
    | .error msg => .error (respondWithError 400 ("Invalid request body: " ++ msg))
    | .ok req =>
      match r.validationErr with
      | some msg => .error (respondWithError 400 ("Validation error: " ++ msg))
      | none => .ok req

/-- Row written by SaveLead in repositories/lead_repository.go; the two
sql.NullString columns are carried as options (NULL when the source field
is empty). -/
structure LeadTransferRecord where
  source : String
  firstName : String
  lastName : String
  email : String
  idNumber : Option String
  quoteID : Option String
  responseUUID : String
  redirectURL : String
  contactNumber : String
  deriving Repr, DecidableEq

/-- Construction of the lead_transfers row from SaveLead. -/
def mkLeadRecord (lead : LeadTransferRequest) (resp : LeadTransferResponse) :
    LeadTransferRecord :=
  { source := lead.Source,
    firstName := lead.FirstName,
    lastName := lead.LastName,
    email := lead.Email,
    idNumber := if lead.IDNumber != "" then some lead.IDNumber else none,
    quoteID := if lead.QuoteID != "" then some lead.QuoteID else none,
    responseUUID := resp.Data.UUID,
    redirectURL := resp.Data.RedirectURL,
    contactNumber := lead.ContactNumber }

/-- Row written by SaveQuote in repositories/lead_repository.go; the two
sql.NullFloat64 columns are carried as options. -/
structure QuickQuoteRecord where
  source : String
  externalReferenceID : String
  vehicleCount : Nat
  responseID : String
  premium : Option Rat
  excess : Option Rat
  deriving Repr, DecidableEq

/-- Construction of the quick_quotes row from SaveQuote: premium and excess
come from the first data element when one exists, NULL otherwise. -/
def mkQuoteRecord (quote : QuickQuoteRequest) (resp : QuickQuoteResponse) :
    QuickQuoteRecord :=
  match resp.Data with
  | [] =>
    { source := quote.Source,
      externalReferenceID := quote.ExternalReferenceID,
      vehicleCount := quote.Vehicles.length,
      responseID := resp.ID,
      premium := none,
      excess := none }
  | d :: _ =>
    { source := quote.Source,
      externalReferenceID := quote.ExternalReferenceID,
      vehicleCount := quote.Vehicles.length,
      responseID := resp.ID,
      premium := some d.Premium,
      excess := some d.Excess }

/-- Outcome of the detached persistence goroutine of a handler: repository
construction fails, the repository has no pool (development mode: SaveLead
and SaveQuote log and return nil without inserting), the insert fails (the
handler logs and discards the error), or the row is inserted. -/
inductive PersistOutcome where
  | repoFailure (msg : String)
  | devModeNoPool
  | saveFailure (msg : String)
  | saved
  deriving Repr, DecidableEq

/-- The detached persistence task a handler launches after a valid upstream
response: its context parent (context.Background() at line 77 of
handlers/lead_transfer.go, hence not the client request context), its own
deadline in seconds (the literal 10 at the same line), and the outcome of
the attempt. -/
structure PersistTask where
  parentIsBackground : Bool
  deadlineSeconds : Nat
  outcome : PersistOutcome
  deriving Repr, DecidableEq

/-- Everything one LeadTransferHandler invocation observes: the inbound
request, the context timeline, the process environment, the effect oracles
of the upstream call, the json.Unmarshal oracle for the upstream body, and
the persistence outcome. -/
structure LeadEnv where
  request : HttpRequest LeadTransferRequest
  ctx : Ctx
  osEnv : EnvMap
  eff : ApiEff
  decodeResp : Bytes → Except String LeadTransferResponse
  persist : PersistOutcome

/-- Client-visible and background results of one handler invocation:
the HTTP response, the upstream dispatch trace (none when validation
rejected the request before MakeAPIRequestAsync was invoked), the detached
persistence task (none when no task was launched), and the database row
created (none when nothing was inserted). -/
structure HandlerResult (ρ : Type) where
  response : HttpResponse
  upstream : Option ApiTrace
  persistTask : Option PersistTask
  record : Option ρ
  deriving Repr, DecidableEq

/-- The upstream dispatch of LeadTransferHandler: MakeAPIRequestAsync on
the configured lead-transfer endpoint with method POST. -/
def leadTrace (env : LeadEnv) : ApiTrace :=
  MakeAPIRequestAsync env.ctx env.osEnv (GetConfig env.osEnv).LeadTransferEndpoint
    "POST" env.eff

/-- Row created by the detached lead persistence goroutine: only a
successful insert creates one. -/
def persistedLead (req : LeadTransferRequest) (resp : LeadTransferResponse) :
    PersistOutcome → Option LeadTransferRecord
  | .saved => some (mkLeadRecord req resp)
  | _ => none

/-- Translation of LeadTransferHandler in handlers/lead_transfer.go:
validate, dispatch through MakeAPIRequestAsync and wait on the channel,
surface an upstream error through http.Error with status 500, decode the
body, reject a response without success or UUID with status 500, otherwise
launch the detached persistence goroutine under a fresh background context
with a 10 second deadline and encode the decoded response with implicit
status 200. -/
def LeadTransferHandler (env : LeadEnv) : HandlerResult LeadTransferRecord :=
  match ValidateRequest env.request with
  | .error errResp =>
    { response := errResp, upstream := none, persistTask := none, record := none }
  | .ok req =>
    match (leadTrace env).result with
    | .err e =>
      { response := goHttpError ("Error calling Lead Transfer API: " ++ e.message) 500,
        upstream := some (leadTrace env), persistTask := none, record := none }
    | .ok b =>
      match env.decodeResp b with
      | .error msg =>
        { response :=
            goHttpError ("Error decoding Lead Transfer API response: " ++ msg) 500,
          upstream := some (leadTrace env), persistTask := none, record := none }
      | .ok resp =>
        if !resp.Success || resp.Data.UUID == "" then
          { response :=
              goHttpError "Invalid response from Lead Transfer API: missing success or UUID" 500,
            upstream := some (leadTrace env), persistTask := none, record := none }
        else
          { response :=
              { status := 200, contentType := "application/json", body := .leadJson resp },
            upstream := some (leadTrace env),
            persistTask :=
              some { parentIsBackground := true, deadlineSeconds := 10,
                     outcome := env.persist },
            record := persistedLead req resp env.persist }

/-- Everything one QuickQuoteHandler invocation observes. -/
structure QuoteEnv where
  request : HttpRequest QuickQuoteRequest
  ctx : Ctx
  osEnv : EnvMap
  eff : ApiEff
  decodeResp : Bytes → Except String QuickQuoteResponse
  persist : PersistOutcome

/-- The upstream dispatch of QuickQuoteHandler: MakeAPIRequestAsync on the
configured quick-quote endpoint with method POST. -/
def quoteTrace (env : QuoteEnv) : ApiTrace :=
  MakeAPIRequestAsync env.ctx env.osEnv (GetConfig env.osEnv).QuickQuoteEndpoint
    "POST" env.eff

/-- Row created by the detached quote persistence goroutine. -/
def persistedQuote (req : QuickQuoteRequest) (resp : QuickQuoteResponse) :
    PersistOutcome → Option QuickQuoteRecord
  | .saved => some (mkQuoteRecord req resp)
  | _ => none

/-- Translation of QuickQuoteHandler in handlers/lead_transfer.go, parallel
to LeadTransferHandler with the quick-quote endpoint, messages, and the
success and ID check on the decoded response. -/
def QuickQuoteHandler (env : QuoteEnv) : HandlerResult QuickQuoteRecord :=
  match ValidateRequest env.request with
  | .error errResp =>
    { response := errResp, upstream := none, persistTask := none, record := none }
  | .ok req =>
    match (quoteTrace env).result with
    | .err e =>
      { response := goHttpError ("Error calling Quick Quote API: " ++ e.message) 500,
        upstream := some (quoteTrace env), persistTask := none, record := none }
    | .ok b =>
      match env.decodeResp b with
      | .error msg =>
        { response :=
            goHttpError ("Error decoding Quick Quote API response: " ++ msg) 500,
          upstream := some (quoteTrace env), persistTask := none, record := none }
      | .ok resp =>
        if !resp.Success || resp.ID == "" then
          { response :=
              goHttpError "Invalid response from Quick Quote API: missing success or ID" 500,
            upstream := some (quoteTrace env), persistTask := none, record := none }
        else
          { response :=
              { status := 200, contentType := "application/json", body := .quoteJson resp },
            upstream := some (quoteTrace env),
            persistTask :=
              some { parentIsBackground := true, deadlineSeconds := 10,
                     outcome := env.persist },
            record := persistedQuote req resp env.persist }

/-- A copy of a lead handler environment with a different persistence
outcome; every other observable of the dispatch is unchanged. -/
def LeadEnv.withPersist (env : LeadEnv) (o : PersistOutcome) : LeadEnv :=
  { env with persist := o }

/-! Concrete fixtures used by witnesses and counterexamples. -/

/-- The empty process environment: every variable unset. -/
def emptyEnv : EnvMap := fun _ => ""

/-- Effect oracles of a dispatch whose marshal, request construction and
transport all succeed with a 200 status. -/
def effOk : ApiEff :=
  { marshal := .ok "marshaled-body",
    newRequest := none,
    netOutcome := .response 200 "upstream-body",
    mockParse := .error "unused",
    nowUnix := 0 }

/-- Effect oracles of a dispatch whose upstream answers HTTP 503. -/
def eff503 : ApiEff :=
  { effOk with netOutcome := .response 503 "service unavailable" }

/-- Effect oracles of a dispatch in the mock branch with a parsable body. -/
def effMock : ApiEff :=
  { effOk with mockParse := .ok [("first_name", "John")] }

/-- A structurally valid lead transfer request. -/
def sampleLeadReq : LeadTransferRequest :=
  { Source := "SureStrat",
    FirstName := "Peter",
    LastName := "Smith",
    Email := "peter@example.com",
    IDNumber := "9510025800086",
    QuoteID := "",
    ContactNumber := "0737111119" }

/-- A well-formed upstream lead transfer response. -/
def sampleLeadResp : LeadTransferResponse :=
  { Success := true,
    Data := { UUID := "66e1894a-87c4-23e8-a456-426655440000",
              RedirectURL := "https://test-pineapple-claims.example/get-started" } }

/-- A context that is live at the async check and never cancelled. -/
def liveCtx : Ctx :=
  { doneAtAsyncCheck := false, cancelledDuringDispatch := false,
    errMsg := "context canceled" }

/-- A lead handler environment in which every stage succeeds. -/
def okLeadEnv : LeadEnv :=
  { request := { contentType := "application/json",
                 decode := .ok sampleLeadReq, validationErr := none },
    ctx := liveCtx,
    osEnv := emptyEnv,
    eff := effOk,
    decodeResp := fun _ => .ok sampleLeadResp,
    persist := PersistOutcome.saved }

/-! Helper lemmas shared by the claim theorems below. -/

/-- Every state the gate can reach holds at most cap tokens. -/
theorem gateReachable_le {cap n : Nat} (h : GateReachable cap n) : n ≤ cap := by
  induction h with
  | start => exact Nat.zero_le cap
  | step _ hs ih =>
    cases hs with
    | acquire hlt => exact hlt
    | release _ => exact le_trans (Nat.sub_le _ _) ih

/-- The event log of a dispatch is one of three shapes: nothing (marshal or
request construction failed), the mock branch, or the acquire / call /
release sequence of the network branch. -/
theorem makeAPIRequest_events_cases (osEnv : EnvMap) (endpoint method : String)
    (eff : ApiEff) :
    (MakeAPIRequest osEnv endpoint method eff).events = [] ∨
    (MakeAPIRequest osEnv endpoint method eff).events = [Event.mockResponse] ∨
    (MakeAPIRequest osEnv endpoint method eff).events
        = [Event.acquire, Event.networkCall, Event.release] := by
  unfold MakeAPIRequest
  cases eff.marshal with
  | error msg => left; rfl
  | ok jsonBody =>
    dsimp only
    split
    · right; left; rfl
    · cases eff.newRequest with
      | some msg => left; rfl
      | none =>
        dsimp only
        cases eff.netOutcome with
        | sendFailure msg => right; right; rfl
        | readFailure msg => right; right; rfl
        | response status body =>
          dsimp only
          split <;> (right; right; rfl)

/-- The async wrapper adds only the empty log of the pre-dispatch
cancellation branch to the possible event shapes. -/
theorem makeAPIRequestAsync_events_cases (ctx : Ctx) (osEnv : EnvMap)
    (endpoint method : String) (eff : ApiEff) :
    (MakeAPIRequestAsync ctx osEnv endpoint method eff).events = [] ∨
    (MakeAPIRequestAsync ctx osEnv endpoint method eff).events = [Event.mockResponse] ∨
    (MakeAPIRequestAsync ctx osEnv endpoint method eff).events
        = [Event.acquire, Event.networkCall, Event.release] := by
  unfold MakeAPIRequestAsync
  split
  · left; rfl
  · exact makeAPIRequest_events_cases osEnv endpoint method eff

/-- In every possible event log, any prefix containing a networkCall event
also contains an acquire event: the token is taken before the call. -/
theorem acquire_mem_take_of_networkCall_mem (l : List Event)
    (hl : l = [] ∨ l = [Event.mockResponse] ∨
          l = [Event.acquire, Event.networkCall, Event.release])
    (k : Nat) (hmem : Event.networkCall ∈ l.take k) :
    Event.acquire ∈ l.take k := by
  rcases hl with h | h | h <;> subst h
  · simp at hmem
  · rcases k with _ | k
    · simp at hmem
    · simp [List.take] at hmem
  · rcases k with _ | _ | k
    · simp at hmem
    · simp [List.take] at hmem
    · simp [List.take]

/-- A trace whose event log has one of the three possible shapes acquires
exactly as many tokens as it releases, and at most one. -/
theorem trace_balanced (t : ApiTrace)
    (h : t.events = [] ∨ t.events = [Event.mockResponse] ∨
         t.events = [Event.acquire, Event.networkCall, Event.release]) :
    t.acquired = t.released ∧ t.acquired ≤ 1 := by
  unfold ApiTrace.acquired ApiTrace.released
  rcases h with h | h | h <;> rw [h] <;> decide

/-- Every error ValidateRequest produces is a respondWithError response
under status 415 or 400. -/
theorem validateRequest_error_shape {α : Type} (r : HttpRequest α)
    (resp : HttpResponse) (h : ValidateRequest r = .error resp) :
    ∃ code msg, (code = 415 ∨ code = 400) ∧ resp = respondWithError code msg := by
  unfold ValidateRequest at h
  split at h
  · exact ⟨415, _, Or.inl rfl, by injection h with h; exact h.symm⟩
  · cases hd : r.decode with
    | error msg =>
      rw [hd] at h
      exact ⟨400, _, Or.inr rfl, by injection h with h; exact h.symm⟩
    | ok req =>
      rw [hd] at h
      cases hvv : r.validationErr with
      | some msg =>
        rw [hvv] at h
        exact ⟨400, _, Or.inr rfl, by injection h with h; exact h.symm⟩
      | none => rw [hvv] at h; cases h

/-- Reduction of LeadTransferHandler when validation rejects the request. -/
theorem leadHandler_validation_error (env : LeadEnv) (errResp : HttpResponse)
    (h : ValidateRequest env.request = .error errResp) :
    LeadTransferHandler env
      = { response := errResp, upstream := none, persistTask := none,
          record := none } := by
  unfold LeadTransferHandler
  rw [h]

/-- Reduction of LeadTransferHandler when the upstream dispatch errors. -/
theorem leadHandler_upstream_error (env : LeadEnv) (req : LeadTransferRequest)
    (e : ApiError) (hv : ValidateRequest env.request = .ok req)
    (hr : (leadTrace env).result = .err e) :
    LeadTransferHandler env
      = { response := goHttpError ("Error calling Lead Transfer API: " ++ e.message) 500,
          upstream := some (leadTrace env), persistTask := none, record := none } := by
  unfold LeadTransferHandler
  rw [hv]
  dsimp only
  rw [hr]

/-- Reduction of LeadTransferHandler when the upstream body fails to
decode. -/
theorem leadHandler_decode_error (env : LeadEnv) (req : LeadTransferRequest)
    (b : Bytes) (msg : String) (hv : ValidateRequest env.request = .ok req)
    (hr : (leadTrace env).result = .ok b) (hd : env.decodeResp b = .error msg) :
    LeadTransferHandler env
      = { response := goHttpError ("Error decoding Lead Transfer API response: " ++ msg) 500,
          upstream := some (leadTrace env), persistTask := none, record := none } := by
  unfold LeadTransferHandler
  rw [hv]
  dsimp only
  rw [hr]
  dsimp only
  rw [hd]

/-- Reduction of LeadTransferHandler when the decoded response fails the
success and UUID check. -/
theorem leadHandler_invalid_payload (env : LeadEnv) (req : LeadTransferRequest)
    (b : Bytes) (resp : LeadTransferResponse)
    (hv : ValidateRequest env.request = .ok req)
    (hr : (leadTrace env).result = .ok b) (hd : env.decodeResp b = .ok resp)
    (hbad : (!resp.Success || resp.Data.UUID == "") = true) :
    LeadTransferHandler env
      = { response :=
            goHttpError "Invalid response from Lead Transfer API: missing success or UUID" 500,
          upstream := some (leadTrace env), persistTask := none, record := none } := by
  unfold LeadTransferHandler
  rw [hv]
  dsimp only
  rw [hr]
  dsimp only
  rw [hd]
  dsimp only
  rw [if_pos hbad]

/-- Reduction of LeadTransferHandler when the decoded response passes the
success and UUID check. -/
theorem leadHandler_success (env : LeadEnv) (req : LeadTransferRequest)
    (b : Bytes) (resp : LeadTransferResponse)
    (hv : ValidateRequest env.request = .ok req)
    (hr : (leadTrace env).result = .ok b) (hd : env.decodeResp b = .ok resp)
    (hgood : (!resp.Success || resp.Data.UUID == "") = false) :
    LeadTransferHandler env
      = { response :=
            { status := 200, contentType := "application/json", body := .leadJson resp },
          upstream := some (leadTrace env),
          persistTask :=
            some { parentIsBackground := true, deadlineSeconds := 10,
                   outcome := env.persist },
          record := persistedLead req resp env.persist } := by
  unfold LeadTransferHandler
  rw [hv]
  dsimp only
  rw [hr]
  dsimp only
  rw [hd]
  dsimp only
  rw [if_neg (by simp [hgood])]

/-- The upstream field of a lead handler result is either nothing or the
dispatch trace. -/
theorem leadHandler_upstream_cases (env : LeadEnv) :
    (LeadTransferHandler env).upstream = none ∨
    (LeadTransferHandler env).upstream = some (leadTrace env) := by
  unfold LeadTransferHandler
  split
  · left; rfl
  · split
    · right; rfl
    · split
      · right; rfl
      · split
        · right; rfl
        · right; rfl

/-- The persistence task of a lead handler result is either absent or the
single background task with a 10 second deadline. -/
theorem leadHandler_task_cases (env : LeadEnv) :
    (LeadTransferHandler env).persistTask = none ∨
    (LeadTransferHandler env).persistTask
      = some { parentIsBackground := true, deadlineSeconds := 10,
               outcome := env.persist } := by
  unfold LeadTransferHandler
  split
  · left; rfl
  · split
    · left; rfl
    · split
      · left; rfl
      · split
        · left; rfl
        · right; rfl

/-- The client-visible response of LeadTransferHandler does not depend on
the persistence outcome. -/
theorem leadResponse_ignores_persist (env : LeadEnv) (o : PersistOutcome) :
    (LeadTransferHandler (env.withPersist o)).response
      = (LeadTransferHandler env).response := by
  rcases env with ⟨req, ctx, osEnv, eff, dec, persist⟩
  unfold LeadTransferHandler LeadEnv.withPersist leadTrace
  dsimp only
  split
  · rfl
  · split
    · rfl
    · split
      · rfl
      · split
        · rfl
        · rfl

/-- A launched lead persistence task implies the dispatch succeeded and
the decoded response carried success and a non-empty UUID. -/
theorem leadHandler_task_inversion (env : LeadEnv) (task : PersistTask)
    (h : (LeadTransferHandler env).persistTask = some task) :
    ∃ b resp, (leadTrace env).result = .ok b ∧ env.decodeResp b = .ok resp ∧
      resp.Success = true ∧ resp.Data.UUID ≠ "" := by
  cases hv : ValidateRequest env.request with
  | error errResp =>
    rw [leadHandler_validation_error env errResp hv] at h
    cases h
  | ok req =>
    cases hr : (leadTrace env).result with
    | err e =>
      rw [leadHandler_upstream_error env req e hv hr] at h
      cases h
    | ok b =>
      cases hd : env.decodeResp b with
      | error msg =>
        rw [leadHandler_decode_error env req b msg hv hr hd] at h
        cases h
      | ok resp =>
        cases hbad : (!resp.Success || resp.Data.UUID == "") with
        | true =>
          rw [leadHandler_invalid_payload env req b resp hv hr hd hbad] at h
          cases h
        | false =>
          refine ⟨b, resp, rfl, hd, ?_, ?_⟩
          · simp at hbad
            exact hbad.1
          · simp at hbad
            exact hbad.2

/-- Reduction of QuickQuoteHandler when validation rejects the request. -/
theorem quoteHandler_validation_error (env : QuoteEnv) (errResp : HttpResponse)
    (h : ValidateRequest env.request = .error errResp) :
    QuickQuoteHandler env
      = { response := errResp, upstream := none, persistTask := none,
          record := none } := by
  unfold QuickQuoteHandler
  rw [h]

/-- Reduction of QuickQuoteHandler when the upstream dispatch errors. -/
theorem quoteHandler_upstream_error (env : QuoteEnv) (req : QuickQuoteRequest)
    (e : ApiError) (hv : ValidateRequest env.request = .ok req)
    (hr : (quoteTrace env).result = .err e) :
    QuickQuoteHandler env
      = { response := goHttpError ("Error calling Quick Quote API: " ++ e.message) 500,
          upstream := some (quoteTrace env), persistTask := none, record := none } := by
  unfold QuickQuoteHandler
  rw [hv]
  dsimp only
  rw [hr]

/-- Reduction of QuickQuoteHandler when the upstream body fails to
decode. -/
theorem quoteHandler_decode_error (env : QuoteEnv) (req : QuickQuoteRequest)
    (b : Bytes) (msg : String) (hv : ValidateRequest env.request = .ok req)
    (hr : (quoteTrace env).result = .ok b) (hd : env.decodeResp b = .error msg) :
    QuickQuoteHandler env
      = { response := goHttpError ("Error decoding Quick Quote API response: " ++ msg) 500,
          upstream := some (quoteTrace env), persistTask := none, record := none } := by
  unfold QuickQuoteHandler
  rw [hv]
  dsimp only
  rw [hr]
  dsimp only
  rw [hd]

/-- Reduction of QuickQuoteHandler when the decoded response fails the
success and ID check. -/
theorem quoteHandler_invalid_payload (env : QuoteEnv) (req : QuickQuoteRequest)
    (b : Bytes) (resp : QuickQuoteResponse)
    (hv : ValidateRequest env.request = .ok req)
    (hr : (quoteTrace env).result = .ok b) (hd : env.decodeResp b = .ok resp)
    (hbad : (!resp.Success || resp.ID == "") = true) :
    QuickQuoteHandler env
      = { response :=
            goHttpError "Invalid response from Quick Quote API: missing success or ID" 500,
          upstream := some (quoteTrace env), persistTask := none, record := none } := by
  unfold QuickQuoteHandler
  rw [hv]
  dsimp only
  rw [hr]
  dsimp only
  rw [hd]
  dsimp only
  rw [if_pos hbad]

/-- A launched quote persistence task implies the dispatch succeeded and
the decoded response carried success and a non-empty ID. -/
theorem quoteHandler_task_inversion (env : QuoteEnv) (task : PersistTask)
    (h : (QuickQuoteHandler env).persistTask = some task) :
    ∃ b resp, (quoteTrace env).result = .ok b ∧ env.decodeResp b = .ok resp ∧
      resp.Success = true ∧ resp.ID ≠ "" := by
  cases hv : ValidateRequest env.request with
  | error errResp =>
    rw [quoteHandler_validation_error env errResp hv] at h
    cases h
  | ok req =>
    cases hr : (quoteTrace env).result with
    | err e =>
      rw [quoteHandler_upstream_error env req e hv hr] at h
      cases h
    | ok b =>
      cases hd : env.decodeResp b with
      | error msg =>
        rw [quoteHandler_decode_error env req b msg hv hr hd] at h
        cases h
      | ok resp =>
        cases hbad : (!resp.Success || resp.ID == "") with
        | true =>
          rw [quoteHandler_invalid_payload env req b resp hv hr hd hbad] at h
          cases h
        | false =>
          refine ⟨b, resp, rfl, hd, ?_, ?_⟩
          · simp at hbad
            exact hbad.1
          · simp at hbad
            exact hbad.2

/-! Claim theorems. -/

/-- C1: in every reachable state of the apiSemaphore gate the number of
acquired-but-not-released tokens is at most the configured capacity
MaxConcurrentCalls, whose value on an empty environment is the default 10;
and in every dispatch of MakeAPIRequest each live upstream call takes its
gate token before the network call: any prefix of the event log containing
a networkCall event already contains an acquire event. Hence no concurrent
burst can drive the number of simultaneously in-flight upstream calls
above the capacity. -/
theorem gate_capacity_invariant (osEnv : EnvMap) (n : Nat)
    (h : GateReachable (GetConfig osEnv).MaxConcurrentCalls.toNat n) :
    n ≤ (GetConfig osEnv).MaxConcurrentCalls.toNat ∧
    (GetConfig (fun _ => "")).MaxConcurrentCalls = 10 ∧
    (∀ (endpoint method : String) (eff : ApiEff) (k : Nat),
      Event.networkCall ∈ ((MakeAPIRequest osEnv endpoint method eff).events.take k) →
      Event.acquire ∈ ((MakeAPIRequest osEnv endpoint method eff).events.take k)) := by
  refine ⟨gateReachable_le h, by decide, ?_⟩
  intro endpoint method eff k hmem
  exact acquire_mem_take_of_networkCall_mem _
    (makeAPIRequest_events_cases osEnv endpoint method eff) k hmem

/-- Witness for gate_capacity_invariant: the default configuration with a
single token outstanding, reached by one acquire step, and a concrete
dispatch whose two-event prefix containing the network call contains the
acquire. -/
theorem gate_capacity_invariant_witness :
    1 ≤ (GetConfig (fun _ => "")).MaxConcurrentCalls.toNat ∧
    (GetConfig (fun _ => "")).MaxConcurrentCalls = 10 ∧
    Event.acquire ∈ ((MakeAPIRequest (fun _ => "") "http://upstream" "POST" effOk).events.take 2) :=
  ⟨(gate_capacity_invariant (fun _ => "") 1
      (GateReachable.step GateReachable.start (GateStep.acquire (by decide)))).1,
   (gate_capacity_invariant (fun _ => "") 1
      (GateReachable.step GateReachable.start (GateStep.acquire (by decide)))).2.1,
   (gate_capacity_invariant (fun _ => "") 1
      (GateReachable.step GateReachable.start (GateStep.acquire (by decide)))).2.2
     "http://upstream" "POST" effOk 2 (by decide)⟩

/-- C4: after any single dispatch completes - success, upstream failure,
mock, request-construction failure, or the pre-dispatch cancellation path
of the async wrapper - the tokens acquired equal the tokens released and
number at most one, and every upstream trace a LeadTransferHandler
invocation records is balanced the same way, so the gate's free capacity
returns to its pre-dispatch value. -/
theorem gate_tokens_balanced (osEnv : EnvMap) (endpoint method : String)
    (eff : ApiEff) (ctx : Ctx) (env : LeadEnv) :
    (MakeAPIRequest osEnv endpoint method eff).acquired
        = (MakeAPIRequest osEnv endpoint method eff).released ∧
    (MakeAPIRequest osEnv endpoint method eff).acquired ≤ 1 ∧
    (MakeAPIRequestAsync ctx osEnv endpoint method eff).acquired
        = (MakeAPIRequestAsync ctx osEnv endpoint method eff).released ∧
    (∀ t ∈ (LeadTransferHandler env).upstream, t.acquired = t.released) := by
  refine ⟨(trace_balanced _ (makeAPIRequest_events_cases osEnv endpoint method eff)).1,
         (trace_balanced _ (makeAPIRequest_events_cases osEnv endpoint method eff)).2,
         (trace_balanced _ (makeAPIRequestAsync_events_cases ctx osEnv endpoint method eff)).1,
         ?_⟩
  intro t ht
  rcases leadHandler_upstream_cases env with hu | hu
  · rw [hu] at ht
    cases ht
  · rw [hu] at ht
    have heq : t = leadTrace env := by
      cases ht
      rfl
    subst heq
    exact (trace_balanced _ (makeAPIRequestAsync_events_cases env.ctx env.osEnv
      (GetConfig env.osEnv).LeadTransferEndpoint "POST" env.eff)).1

/-- Witness for gate_tokens_balanced: a concrete successful dispatch with
its recorded upstream trace. -/
theorem gate_tokens_balanced_witness :
    (MakeAPIRequest emptyEnv "http://upstream" "POST" effOk).acquired
        = (MakeAPIRequest emptyEnv "http://upstream" "POST" effOk).released ∧
    (MakeAPIRequest emptyEnv "http://upstream" "POST" effOk).acquired ≤ 1 ∧
    (MakeAPIRequestAsync liveCtx emptyEnv "http://upstream" "POST" effOk).acquired
        = (MakeAPIRequestAsync liveCtx emptyEnv "http://upstream" "POST" effOk).released ∧
    (leadTrace okLeadEnv).acquired = (leadTrace okLeadEnv).released :=
  ⟨(gate_tokens_balanced emptyEnv "http://upstream" "POST" effOk liveCtx okLeadEnv).1,
   (gate_tokens_balanced emptyEnv "http://upstream" "POST" effOk liveCtx okLeadEnv).2.1,
   (gate_tokens_balanced emptyEnv "http://upstream" "POST" effOk liveCtx okLeadEnv).2.2.1,
   (gate_tokens_balanced emptyEnv "http://upstream" "POST" effOk liveCtx okLeadEnv).2.2.2
     (leadTrace okLeadEnv) (by decide)⟩

/-- A context that is still live when the async goroutine runs its single
select, but is cancelled while the dispatch waits for the gate or while
the network call is in flight. -/
def cancelMidFlightCtx : Ctx :=
  { doneAtAsyncCheck := false, cancelledDuringDispatch := true,
    errMsg := "context canceled" }

/-- C2 counterexample: at a concrete input whose context is cancelled
after the goroutine's single select - that is, during gate-wait or while
the call is in flight - the dispatch is not aborted: it runs the network
call to completion and returns the upstream body, not a cancellation
error, refuting the claim that cancellation mid-dispatch aborts the wait
or the call. -/
theorem cancellation_mid_dispatch_ignored :
    cancelMidFlightCtx.cancelledDuringDispatch = true ∧
    (MakeAPIRequestAsync cancelMidFlightCtx emptyEnv "http://upstream" "POST" effOk).result
        = ApiResult.ok (Bytes.raw "upstream-body") ∧
    (MakeAPIRequestAsync cancelMidFlightCtx emptyEnv "http://upstream" "POST" effOk).events
        = [Event.acquire, Event.networkCall, Event.release] := by
  refine ⟨rfl, by decide, by decide⟩

/-- C2 amended: cancellation is observed at exactly one point, the
non-blocking select the async goroutine runs before dispatching. A context
already done there yields a cancellation error, with no token acquired and
no network call; once MakeAPIRequest has been entered, neither the gate
wait nor the in-flight call observes the context, and the dispatch result
is exactly that of the uncancelled dispatch (any held token still being
released by the balanced event log). -/
theorem ctx_checked_only_before_dispatch (ctx : Ctx) (osEnv : EnvMap)
    (endpoint method : String) (eff : ApiEff) :
    (ctx.doneAtAsyncCheck = true →
      MakeAPIRequestAsync ctx osEnv endpoint method eff
        = { result := .err (.ctxDone ctx.errMsg), events := [] }) ∧
    (ctx.doneAtAsyncCheck = false →
      MakeAPIRequestAsync ctx osEnv endpoint method eff
        = MakeAPIRequest osEnv endpoint method eff) := by
  constructor <;> intro h <;> simp [MakeAPIRequestAsync, h]

/-- Witness for ctx_checked_only_before_dispatch: the mid-flight cancelled
context dispatches exactly like the uncancelled one, and a context done at
the check aborts with the cancellation error before acquiring anything. -/
theorem ctx_checked_only_before_dispatch_witness :
    MakeAPIRequestAsync cancelMidFlightCtx emptyEnv "http://upstream" "POST" effOk
        = MakeAPIRequest emptyEnv "http://upstream" "POST" effOk ∧
    MakeAPIRequestAsync { doneAtAsyncCheck := true, cancelledDuringDispatch := false,
                          errMsg := "context deadline exceeded" }
        emptyEnv "http://upstream" "POST" effOk
      = { result := .err (.ctxDone "context deadline exceeded"), events := [] } :=
  ⟨(ctx_checked_only_before_dispatch cancelMidFlightCtx emptyEnv
      "http://upstream" "POST" effOk).2 rfl,
   (ctx_checked_only_before_dispatch
      { doneAtAsyncCheck := true, cancelledDuringDispatch := false,
        errMsg := "context deadline exceeded" }
      emptyEnv "http://upstream" "POST" effOk).1 rfl⟩

/-- The default lead transfer endpoint. -/
def leadEndpoint : String := "http://gw-test.pineapple.co.za/users/motor_lead"

/-- A process environment holding a live production bearer token while the
HTTP_USER_AGENT variable happens to contain the word Swagger. -/
def swaggerUAEnv : EnvMap := fun k =>
  if k == "API_BEARER_TOKEN" then "live-production-token"
  else if k == "HTTP_USER_AGENT" then "Swagger-Codegen/1.0" else ""

/-- C3 counterexample: with a configuration that does not select synthetic
mode (the bearer token is a live token, not the documentation token), a
HTTP_USER_AGENT value containing the word Swagger still routes the
dispatch into the mock branch: no network call is made and a fabricated
success body is returned, refuting the claim that the mock branch is
unreachable unless configuration explicitly selects synthetic mode. -/
theorem mock_selected_by_user_agent :
    ((GetConfig swaggerUAEnv).APIBearerToken == "swagger_documentation_token") = false ∧
    (MakeAPIRequest swaggerUAEnv leadEndpoint "POST" effMock).events
        = [Event.mockResponse] ∧
    (MakeAPIRequest swaggerUAEnv leadEndpoint "POST" effMock).networkCalls = 0 ∧
    (MakeAPIRequest swaggerUAEnv leadEndpoint "POST" effMock).result
        = ApiResult.ok (Bytes.mockLead "swagger-doc-uuid-0"
            "https://test-pineapple-claims.herokuapp.com/car-insurance/get-started?uuid=swagger-doc-uuid-0&ref=swagger-doc&name=John") := by
  refine ⟨by decide, by decide, by decide, by decide⟩

/-- C3 amended: mock-response selection is decided by the isSwaggerRequest
heuristic over the process environment - bearer token equal to the
documentation token, or HTTP_REFERER containing the swagger path, or
HTTP_USER_AGENT containing the word Swagger - and by nothing in the
request payload. When the heuristic is false the mock branch is
unreachable and (request construction permitting) the real network call
is performed; when it is true the dispatch performs no network call and
returns the fabricated body. -/
theorem mock_mode_selection (osEnv : EnvMap) (endpoint method : String)
    (eff : ApiEff) (jsonBody : String) (hm : eff.marshal = .ok jsonBody) :
    (isSwaggerRequest osEnv = false →
      Event.mockResponse ∉ (MakeAPIRequest osEnv endpoint method eff).events ∧
      (eff.newRequest = none →
        Event.networkCall ∈ (MakeAPIRequest osEnv endpoint method eff).events)) ∧
    (isSwaggerRequest osEnv = true →
      (MakeAPIRequest osEnv endpoint method eff).events = [Event.mockResponse] ∧
      (MakeAPIRequest osEnv endpoint method eff).result
        = createMockResponse endpoint method jsonBody eff) := by
  unfold MakeAPIRequest
  rw [hm]
  dsimp only
  constructor
  · intro hsw
    rw [if_neg (by simp [hsw])]
    cases hnr : eff.newRequest with
    | some msg => simp
    | none =>
      dsimp only
      cases hnet : eff.netOutcome with
      | sendFailure msg => simp
      | readFailure msg => simp
      | response status body =>
        dsimp only
        constructor
        · split <;> simp
        · intro _
          split <;> simp
  · intro hsw
    rw [if_pos hsw]
    exact ⟨rfl, rfl⟩

/-- Witness for mock_mode_selection: the empty environment dispatches live
and reaches the network, while the Swagger user-agent environment yields
exactly the mock event. -/
theorem mock_mode_selection_witness :
    Event.mockResponse ∉ (MakeAPIRequest emptyEnv "http://upstream" "POST" effOk).events ∧
    Event.networkCall ∈ (MakeAPIRequest emptyEnv "http://upstream" "POST" effOk).events ∧
    (MakeAPIRequest swaggerUAEnv leadEndpoint "POST" effMock).events
        = [Event.mockResponse] :=
  ⟨((mock_mode_selection emptyEnv "http://upstream" "POST" effOk
      "marshaled-body" rfl).1 (by decide)).1,
   ((mock_mode_selection emptyEnv "http://upstream" "POST" effOk
      "marshaled-body" rfl).1 (by decide)).2 rfl,
   ((mock_mode_selection swaggerUAEnv leadEndpoint "POST" effMock
      "marshaled-body" rfl).2 (by decide)).1⟩

/-- C5: a request that fails structural validation is answered immediately
with the validation error response - always a respondWithError JSON body
under status 415 or 400 - and the handler never invokes the upstream
caller, so no gate token is consumed, no persistence task is launched and
no record is created. -/
theorem validation_failure_no_upstream (env : LeadEnv) (errResp : HttpResponse)
    (h : ValidateRequest env.request = .error errResp) :
    (LeadTransferHandler env).response = errResp ∧
    (LeadTransferHandler env).upstream = none ∧
    (LeadTransferHandler env).persistTask = none ∧
    (LeadTransferHandler env).record = none ∧
    ∃ code msg, (code = 415 ∨ code = 400) ∧ errResp = respondWithError code msg := by
  rw [leadHandler_validation_error env errResp h]
  exact ⟨rfl, rfl, rfl, rfl, validateRequest_error_shape env.request errResp h⟩

/-- A lead handler environment whose request fails struct validation. -/
def badFieldLeadEnv : LeadEnv :=
  { okLeadEnv with
    request := { contentType := "application/json", decode := .ok sampleLeadReq,
                 validationErr := some "Email is required" } }

/-- Witness for validation_failure_no_upstream: a concrete request with a
failing required field is rejected with the 400 validation response and
nothing else happens. -/
theorem validation_failure_no_upstream_witness :
    (LeadTransferHandler badFieldLeadEnv).response
        = respondWithError 400 "Validation error: Email is required" ∧
    (LeadTransferHandler badFieldLeadEnv).upstream = none ∧
    (LeadTransferHandler badFieldLeadEnv).persistTask = none ∧
    (LeadTransferHandler badFieldLeadEnv).record = none :=
  ⟨(validation_failure_no_upstream badFieldLeadEnv _ rfl).1,
   (validation_failure_no_upstream badFieldLeadEnv _ rfl).2.1,
   (validation_failure_no_upstream badFieldLeadEnv _ rfl).2.2.1,
   (validation_failure_no_upstream badFieldLeadEnv _ rfl).2.2.2.1⟩

/-- C6: a live upstream call returning a 2xx status yields the raw body
with no error, any other status yields the non-2xx error carrying exactly
the status code and body in its message, and when the dispatch of a lead
transfer errs the client receives the plain 500 error response while no
persistence task is launched and no record is created. -/
theorem upstream_status_contract :
    (∀ (osEnv : EnvMap) (endpoint method : String) (eff : ApiEff)
        (status : Nat) (body : String),
      eff.netOutcome = NetOutcome.response status body →
      Event.networkCall ∈ (MakeAPIRequest osEnv endpoint method eff).events →
      ((200 ≤ status ∧ status < 300) →
        (MakeAPIRequest osEnv endpoint method eff).result = .ok (.raw body)) ∧
      (¬(200 ≤ status ∧ status < 300) →
        (MakeAPIRequest osEnv endpoint method eff).result
            = .err (.non2xx status body) ∧
        (ApiError.non2xx status body).message
          = "API returned non-2XX status code: " ++ toString status
              ++ ", body: " ++ body)) ∧
    (∀ (env : LeadEnv) (req : LeadTransferRequest) (e : ApiError),
      ValidateRequest env.request = .ok req →
      (leadTrace env).result = .err e →
      (LeadTransferHandler env).response
          = goHttpError ("Error calling Lead Transfer API: " ++ e.message) 500 ∧
      (LeadTransferHandler env).persistTask = none ∧
      (LeadTransferHandler env).record = none) := by
  constructor
  · intro osEnv endpoint method eff status body hnet hcall
    unfold MakeAPIRequest at hcall ⊢
    cases hm : eff.marshal with
    | error msg =>
      rw [hm] at hcall
      simp at hcall
    | ok jsonBody =>
      rw [hm] at hcall
      dsimp only at hcall ⊢
      by_cases hsw : isSwaggerRequest osEnv = true
      · rw [if_pos hsw] at hcall
        simp at hcall
      · rw [if_neg hsw] at hcall ⊢
        cases hnr : eff.newRequest with
        | some msg =>
          rw [hnr] at hcall
          simp at hcall
        | none =>
          dsimp only
          rw [hnet]
          dsimp only
          constructor
          · intro h2xx
            rw [if_neg (by simp only [Bool.or_eq_true, decide_eq_true_eq]; omega)]
          · intro hneg
            rw [if_pos (by simp only [Bool.or_eq_true, decide_eq_true_eq]; omega)]
            exact ⟨rfl, rfl⟩
  · intro env req e hv hr
    rw [leadHandler_upstream_error env req e hv hr]
    exact ⟨rfl, rfl, rfl⟩

/-- A lead handler environment whose upstream answers HTTP 503. -/
def lead503Env : LeadEnv :=
  { okLeadEnv with eff := eff503 }

/-- Witness for upstream_status_contract: a 200 body passes through raw, a
concrete 503 yields the non-2xx error, and the handler surfaces it as the
plain 500 response with no record created. -/
theorem upstream_status_contract_witness :
    (MakeAPIRequest emptyEnv "http://upstream" "POST" effOk).result
        = ApiResult.ok (Bytes.raw "upstream-body") ∧
    (MakeAPIRequest emptyEnv "http://upstream" "POST" eff503).result
        = ApiResult.err (ApiError.non2xx 503 "service unavailable") ∧
    (LeadTransferHandler lead503Env).response
        = goHttpError ("Error calling Lead Transfer API: "
            ++ (ApiError.non2xx 503 "service unavailable").message) 500 ∧
    (LeadTransferHandler lead503Env).record = none :=
  ⟨(upstream_status_contract.1 emptyEnv "http://upstream" "POST" effOk 200
      "upstream-body" rfl (by decide)).1 (by omega),
   ((upstream_status_contract.1 emptyEnv "http://upstream" "POST" eff503 503
      "service unavailable" rfl (by decide)).2 (by omega)).1,
   (upstream_status_contract.2 lead503Env sampleLeadReq
      (ApiError.non2xx 503 "service unavailable") rfl (by decide)).1,
   (upstream_status_contract.2 lead503Env sampleLeadReq
      (ApiError.non2xx 503 "service unavailable") rfl (by decide)).2.2⟩

/-- C7: the client-visible response of a dispatch is identical whatever the
persistence outcome - two runs differing only in that outcome produce the
same response; any launched persistence task runs under the background
context with its own 10 second deadline, not the client request context;
and at most one persistence task is launched per dispatch. -/
theorem persistence_isolated (env : LeadEnv) (o1 o2 : PersistOutcome) :
    (LeadTransferHandler (env.withPersist o1)).response
        = (LeadTransferHandler (env.withPersist o2)).response ∧
    (∀ task ∈ (LeadTransferHandler env).persistTask,
        task.parentIsBackground = true ∧ task.deadlineSeconds = 10 ∧
        task.outcome = env.persist) ∧
    (LeadTransferHandler env).persistTask.toList.length ≤ 1 := by
  refine ⟨?_, ?_, ?_⟩
  · rw [leadResponse_ignores_persist env o1, leadResponse_ignores_persist env o2]
  · intro task htask
    rcases leadHandler_task_cases env with h | h
    · rw [h] at htask
      cases htask
    · rw [h] at htask
      cases htask
      exact ⟨rfl, rfl, rfl⟩
  · rcases leadHandler_task_cases env with h | h <;> rw [h] <;> simp


/-- Witness for persistence_isolated: a failing and a succeeding
persistence attempt yield the same concrete client response, the launched
task is the single background task with the 10 second deadline. -/
theorem persistence_isolated_witness :
    (LeadTransferHandler (okLeadEnv.withPersist (PersistOutcome.saveFailure "connection refused"))).response
        = (LeadTransferHandler (okLeadEnv.withPersist PersistOutcome.saved)).response ∧
    ({ parentIsBackground := true, deadlineSeconds := 10,
       outcome := PersistOutcome.saved } : PersistTask).parentIsBackground = true ∧
    (LeadTransferHandler okLeadEnv).persistTask.toList.length ≤ 1 :=
  ⟨(persistence_isolated okLeadEnv (PersistOutcome.saveFailure "connection refused")
      PersistOutcome.saved).1,
   ((persistence_isolated okLeadEnv PersistOutcome.saved PersistOutcome.saved).2.1
      { parentIsBackground := true, deadlineSeconds := 10,
        outcome := PersistOutcome.saved } rfl).1,
   (persistence_isolated okLeadEnv PersistOutcome.saved PersistOutcome.saved).2.2⟩

/-- C8 counterexample: at a concrete dispatch whose upstream answers HTTP
503, the handler surfaces the upstream transport error through the Go
http.Error helper: a plain-text 500 response that carries the message but
no success flag, refuting the claim that every upstream transport error is
surfaced as an error response carrying a success flag. -/
theorem upstream_error_lacks_success_flag :
    (LeadTransferHandler lead503Env).response.body.carriesSuccessFlag = false ∧
    (LeadTransferHandler lead503Env).response
        = goHttpError "Error calling Lead Transfer API: API returned non-2XX status code: 503, body: service unavailable" 500 :=
  ⟨by decide, by decide⟩

/-- C8 amended: validation errors are surfaced as the JSON ErrorResponse
carrying success false and a message; upstream-call errors (transport
failures, non-2xx statuses, the pre-dispatch cancellation error) and
decode errors are surfaced through http.Error as plain-text 500 responses
carrying a message but no success flag; and the persistence outcome never
alters the client response, so a persistence error never reaches the
client. -/
theorem error_propagation_policy :
    (∀ (env : LeadEnv) (errResp : HttpResponse),
      ValidateRequest env.request = .error errResp →
      (LeadTransferHandler env).response = errResp ∧
      ∃ msg, errResp.body = RespBody.errorJson { Success := false, Error := msg } ∧
        errResp.body.carriesSuccessFlag = true) ∧
    (∀ (env : LeadEnv) (req : LeadTransferRequest) (e : ApiError),
      ValidateRequest env.request = .ok req →
      (leadTrace env).result = .err e →
      (LeadTransferHandler env).response
          = goHttpError ("Error calling Lead Transfer API: " ++ e.message) 500 ∧
      (LeadTransferHandler env).response.body.carriesSuccessFlag = false) ∧
    (∀ (env : LeadEnv) (req : LeadTransferRequest) (b : Bytes) (msg : String),
      ValidateRequest env.request = .ok req →
      (leadTrace env).result = .ok b →
      env.decodeResp b = .error msg →
      (LeadTransferHandler env).response
          = goHttpError ("Error decoding Lead Transfer API response: " ++ msg) 500 ∧
      (LeadTransferHandler env).response.body.carriesSuccessFlag = false) ∧
    (∀ (env : LeadEnv) (o1 o2 : PersistOutcome),
      (LeadTransferHandler (env.withPersist o1)).response
        = (LeadTransferHandler (env.withPersist o2)).response) := by
  refine ⟨?_, ?_, ?_, ?_⟩
  · intro env errResp h
    refine ⟨by rw [leadHandler_validation_error env errResp h], ?_⟩
    obtain ⟨code, msg, _, hshape⟩ := validateRequest_error_shape env.request errResp h
    exact ⟨msg, by rw [hshape]; rfl, by rw [hshape]; rfl⟩
  · intro env req e hv hr
    rw [leadHandler_upstream_error env req e hv hr]
    exact ⟨rfl, rfl⟩
  · intro env req b msg hv hr hd
    rw [leadHandler_decode_error env req b msg hv hr hd]
    exact ⟨rfl, rfl⟩
  · intro env o1 o2
    rw [leadResponse_ignores_persist env o1, leadResponse_ignores_persist env o2]

/-- A lead handler environment whose upstream body does not decode. -/
def decodeFailLeadEnv : LeadEnv :=
  { okLeadEnv with decodeResp := fun _ => .error "unexpected end of JSON input" }

/-- Witness for error_propagation_policy: a failing validation yields the
JSON 400 error body, a 503 upstream yields a flagless plain-text response,
a decode failure yields the plain-text 500 response, and swapping the
persistence outcome leaves the concrete response unchanged. -/
theorem error_propagation_policy_witness :
    (LeadTransferHandler badFieldLeadEnv).response
        = respondWithError 400 "Validation error: Email is required" ∧
    (LeadTransferHandler lead503Env).response.body.carriesSuccessFlag = false ∧
    (LeadTransferHandler decodeFailLeadEnv).response
        = goHttpError "Error decoding Lead Transfer API response: unexpected end of JSON input" 500 ∧
    (LeadTransferHandler (okLeadEnv.withPersist (PersistOutcome.saveFailure "db down"))).response
        = (LeadTransferHandler (okLeadEnv.withPersist PersistOutcome.saved)).response :=
  ⟨(error_propagation_policy.1 badFieldLeadEnv _ rfl).1,
   (error_propagation_policy.2.1 lead503Env sampleLeadReq
      (ApiError.non2xx 503 "service unavailable") rfl (by decide)).2,
   (error_propagation_policy.2.2.1 decodeFailLeadEnv sampleLeadReq
      (Bytes.raw "upstream-body") "unexpected end of JSON input" rfl (by decide) rfl).1,
   error_propagation_policy.2.2.2 okLeadEnv (PersistOutcome.saveFailure "db down")
     PersistOutcome.saved⟩

/-- C9: even after a 2xx status and a successful decode, a response without
its success flag set or without a non-empty upstream identifier (UUID for
lead transfer, ID for quick quote) is answered with the plain 500 invalid
response and launches no persistence task; conversely a launched task
implies the decoded response carried success and a non-empty identifier. -/
theorem invalid_upstream_payload_rejected :
    (∀ (env : LeadEnv) (req : LeadTransferRequest) (b : Bytes)
        (resp : LeadTransferResponse),
      ValidateRequest env.request = .ok req →
      (leadTrace env).result = .ok b →
      env.decodeResp b = .ok resp →
      (resp.Success = false ∨ resp.Data.UUID = "") →
      (LeadTransferHandler env).response
          = goHttpError "Invalid response from Lead Transfer API: missing success or UUID" 500 ∧
      (LeadTransferHandler env).persistTask = none ∧
      (LeadTransferHandler env).record = none) ∧
    (∀ (env : LeadEnv) (task : PersistTask),
      (LeadTransferHandler env).persistTask = some task →
      ∃ b resp, (leadTrace env).result = .ok b ∧ env.decodeResp b = .ok resp ∧
        resp.Success = true ∧ resp.Data.UUID ≠ "") ∧
    (∀ (env : QuoteEnv) (req : QuickQuoteRequest) (b : Bytes)
        (resp : QuickQuoteResponse),
      ValidateRequest env.request = .ok req →
      (quoteTrace env).result = .ok b →
      env.decodeResp b = .ok resp →
      (resp.Success = false ∨ resp.ID = "") →
      (QuickQuoteHandler env).response
          = goHttpError "Invalid response from Quick Quote API: missing success or ID" 500 ∧
      (QuickQuoteHandler env).persistTask = none ∧
      (QuickQuoteHandler env).record = none) ∧
    (∀ (env : QuoteEnv) (task : PersistTask),
      (QuickQuoteHandler env).persistTask = some task →
      ∃ b resp, (quoteTrace env).result = .ok b ∧ env.decodeResp b = .ok resp ∧
        resp.Success = true ∧ resp.ID ≠ "") := by
  refine ⟨?_, leadHandler_task_inversion, ?_, quoteHandler_task_inversion⟩
  · intro env req b resp hv hr hd hbad
    have hb : (!resp.Success || resp.Data.UUID == "") = true := by
      rcases hbad with h | h <;> simp [h]
    rw [leadHandler_invalid_payload env req b resp hv hr hd hb]
    exact ⟨rfl, rfl, rfl⟩
  · intro env req b resp hv hr hd hbad
    have hb : (!resp.Success || resp.ID == "") = true := by
      rcases hbad with h | h <;> simp [h]
    rw [quoteHandler_invalid_payload env req b resp hv hr hd hb]
    exact ⟨rfl, rfl, rfl⟩

/-- A lead handler environment whose decoded upstream response carries
success but an empty UUID. -/
def noUUIDLeadEnv : LeadEnv :=
  { okLeadEnv with
    decodeResp := fun _ =>
      .ok { Success := true, Data := { UUID := "", RedirectURL := "" } } }

/-- A structurally valid quick quote request. -/
def sampleQuoteReq : QuickQuoteRequest :=
  { Source := "SureStrat", ExternalReferenceID := "ref-12345", Vehicles := [] }

/-- A quote handler environment whose decoded upstream response carries
success but an empty ID. -/
def noIDQuoteEnv : QuoteEnv :=
  { request := { contentType := "application/json", decode := .ok sampleQuoteReq,
                 validationErr := none },
    ctx := liveCtx,
    osEnv := emptyEnv,
    eff := effOk,
    decodeResp := fun _ => .ok { Success := true, ID := "", Data := [] },
    persist := PersistOutcome.saved }

/-- Witness for invalid_upstream_payload_rejected: concrete 2xx dispatches
whose decoded bodies lack the UUID / the ID are answered with 500 and
launch nothing. -/
theorem invalid_upstream_payload_rejected_witness :
    (LeadTransferHandler noUUIDLeadEnv).response
        = goHttpError "Invalid response from Lead Transfer API: missing success or UUID" 500 ∧
    (LeadTransferHandler noUUIDLeadEnv).persistTask = none ∧
    (QuickQuoteHandler noIDQuoteEnv).response
        = goHttpError "Invalid response from Quick Quote API: missing success or ID" 500 ∧
    (QuickQuoteHandler noIDQuoteEnv).persistTask = none :=
  ⟨(invalid_upstream_payload_rejected.1 noUUIDLeadEnv sampleLeadReq
      (Bytes.raw "upstream-body")
      { Success := true, Data := { UUID := "", RedirectURL := "" } }
      rfl (by decide) rfl (Or.inr rfl)).1,
   (invalid_upstream_payload_rejected.1 noUUIDLeadEnv sampleLeadReq
      (Bytes.raw "upstream-body")
      { Success := true, Data := { UUID := "", RedirectURL := "" } }
      rfl (by decide) rfl (Or.inr rfl)).2.1,
   (invalid_upstream_payload_rejected.2.2.1 noIDQuoteEnv sampleQuoteReq
      (Bytes.raw "upstream-body") { Success := true, ID := "", Data := [] }
      rfl (by decide) rfl (Or.inr rfl)).1,
   (invalid_upstream_payload_rejected.2.2.1 noIDQuoteEnv sampleQuoteReq
      (Bytes.raw "upstream-body") { Success := true, ID := "", Data := [] }
      rfl (by decide) rfl (Or.inr rfl)).2.1⟩

/-- C10: a POST whose Content-Type header is not exactly the string
application/json - including otherwise-valid variants carrying a charset
parameter - is rejected with the 415 JSON error response whatever the body
decodes to (the rejection is uniform in the decode and validation oracles,
so it happens before the body is read), and no upstream dispatch, gate
acquisition, persistence task or record results. -/
theorem content_type_rejected (ct : String)
    (h : (ct == "application/json") = false)
    (dec : Except String LeadTransferRequest) (verr : Option String) (ctx : Ctx)
    (osEnv : EnvMap) (eff : ApiEff)
    (decodeResp : Bytes → Except String LeadTransferResponse)
    (persist : PersistOutcome) :
    (LeadTransferHandler
        { request := { contentType := ct, decode := dec, validationErr := verr },
          ctx := ctx, osEnv := osEnv, eff := eff, decodeResp := decodeResp,
          persist := persist }).response
      = respondWithError 415 "Content-Type must be application/json" ∧
    (LeadTransferHandler
        { request := { contentType := ct, decode := dec, validationErr := verr },
          ctx := ctx, osEnv := osEnv, eff := eff, decodeResp := decodeResp,
          persist := persist }).upstream = none ∧
    (LeadTransferHandler
        { request := { contentType := ct, decode := dec, validationErr := verr },
          ctx := ctx, osEnv := osEnv, eff := eff, decodeResp := decodeResp,
          persist := persist }).persistTask = none ∧
    (LeadTransferHandler
        { request := { contentType := ct, decode := dec, validationErr := verr },
          ctx := ctx, osEnv := osEnv, eff := eff, decodeResp := decodeResp,
          persist := persist }).record = none := by
  have hv : ValidateRequest
      ({ contentType := ct, decode := dec, validationErr := verr } :
        HttpRequest LeadTransferRequest)
      = .error (respondWithError 415 "Content-Type must be application/json") := by
    unfold ValidateRequest
    rw [if_pos (by simp [bne, h])]
  rw [leadHandler_validation_error _ _ hv]
  exact ⟨rfl, rfl, rfl, rfl⟩

/-- Witness for content_type_rejected: the otherwise-valid variant header
with a charset parameter is rejected with 415 and nothing else happens. -/
theorem content_type_rejected_witness :
    (LeadTransferHandler
        { request := { contentType := "application/json; charset=utf-8",
                       decode := .ok sampleLeadReq, validationErr := none },
          ctx := liveCtx, osEnv := emptyEnv, eff := effOk,
          decodeResp := fun _ => .ok sampleLeadResp,
          persist := PersistOutcome.saved }).response
      = respondWithError 415 "Content-Type must be application/json" ∧
    (LeadTransferHandler
        { request := { contentType := "application/json; charset=utf-8",
                       decode := .ok sampleLeadReq, validationErr := none },
          ctx := liveCtx, osEnv := emptyEnv, eff := effOk,
          decodeResp := fun _ => .ok sampleLeadResp,
          persist := PersistOutcome.saved }).upstream = none ∧
    (LeadTransferHandler
        { request := { contentType := "application/json; charset=utf-8",
                       decode := .ok sampleLeadReq, validationErr := none },
          ctx := liveCtx, osEnv := emptyEnv, eff := effOk,
          decodeResp := fun _ => .ok sampleLeadResp,
          persist := PersistOutcome.saved }).persistTask = none ∧
    (LeadTransferHandler
        { request := { contentType := "application/json; charset=utf-8",
                       decode := .ok sampleLeadReq, validationErr := none },
          ctx := liveCtx, osEnv := emptyEnv, eff := effOk,
          decodeResp := fun _ => .ok sampleLeadResp,
          persist := PersistOutcome.saved }).record = none :=
  content_type_rejected "application/json; charset=utf-8" (by decide)
    (.ok sampleLeadReq) none liveCtx emptyEnv effOk (fun _ => .ok sampleLeadResp)
    PersistOutcome.saved

end Pineapple
